import Mathlib

/-!
Verification development for the stripe-decline-codes library: a static
lookup and formatting utility for payment decline codes. The data model
and the public operations are embedded shallowly below; theorems settle
the documented contract of each operation.
-/

namespace StripeDeclineCodes

/-- Supported locale set, closed and fixed: en and ja; base locale is en. -/
inductive Locale where
| en
| ja
deriving DecidableEq, BEq, Repr

/-- Category of a decline code: soft declines are transient, hard declines
are permanent. -/
inductive DeclineCategory where
| SOFT_DECLINE
| HARD_DECLINE
deriving DecidableEq, BEq, Repr

/-- Per-locale override of description and nextUserAction. Fields in order:
description, nextUserAction. -/
structure Translation where
  description : String
  nextUserAction : String
deriving DecidableEq, Repr

/-- Modelled from the spec: the unit of data for one decline code, named
DeclineCodeInfo as in the repository tests. The source file
src/data/decline-codes.ts is not present under src; the shape follows the
spec data model and the tests. Fields in order: category, description,
nextSteps, nextUserAction, translations. -/
structure DeclineCodeInfo where
  category : DeclineCategory
  description : String
  nextSteps : String
  nextUserAction : String
  translations : List (Locale × Translation)
deriving DecidableEq, Repr

/-- Modelled from the spec: the static registry DECLINE_CODES from the
missing source file src/data/decline-codes.ts. Only the entries and
strings attested by the spec and the repository tests are guaranteed:
the codes insufficient_funds, generic_decline, expired_card,
incorrect_cvc and fraudulent; the descriptions of generic_decline and
insufficient_funds; the en and ja nextUserAction of insufficient_funds
and its ja description; the categories of insufficient_funds (soft) and
fraudulent (hard). The remaining strings and categories are non-empty
placeholders consistent with the spec invariants. -/
def DECLINE_CODES : List (String × DeclineCodeInfo) :=
  [ ("generic_decline",
      ⟨DeclineCategory.HARD_DECLINE,
       "The card has been declined for an unknown reason.",
       "Ask the customer to contact their card issuer for more information.",
       "Please contact your card issuer for more information.",
       []⟩),
    ("insufficient_funds",
      ⟨DeclineCategory.SOFT_DECLINE,
       "The card has insufficient funds to complete the purchase.",
       "Ask the customer to use an alternative payment method.",
       "Please try again using an alternative payment method.",
       [(Locale.ja,
         ⟨"カードの購入に必要な資金が不足しています。",
          "別のお支払い方法を使用してもう一度お試しください。"⟩)]⟩),
    ("expired_card",
      ⟨DeclineCategory.HARD_DECLINE,
       "The card has expired.",
       "Ask the customer to use another card.",
       "Please use another card.",
       []⟩),
    ("incorrect_cvc",
      ⟨DeclineCategory.SOFT_DECLINE,
       "The CVC number is incorrect.",
       "Ask the customer to try again using the correct CVC.",
       "Please try again using the correct CVC.",
       []⟩),
    ("fraudulent",
      ⟨DeclineCategory.HARD_DECLINE,
       "The payment has been declined as the issuer suspects it is fraudulent.",
       "Do not report more detail to the customer.",
       "Please contact your card issuer for more information.",
       []⟩) ]

/-- Modelled from the spec: exact, case-sensitive lookup of a code in the
registry, with no trimming or normalization; absent for any string not
present as a key. -/
def lookupDeclineCode (code : String) : Option DeclineCodeInfo :=
  (DECLINE_CODES.find? fun kv => kv.1 == code).map Prod.snd

/-- Modelled from the spec: isValidDeclineCode is equivalent to the lookup
being present. -/
def isValidDeclineCode (code : String) : Bool :=
  (lookupDeclineCode code).isSome

/-- Modelled from the spec: getAllDeclineCodes returns every registry key,
in the insertion order of the static definition. -/
def getAllDeclineCodes : List String :=
  DECLINE_CODES.map Prod.fst

/-- Modelled from the spec: the fixed dataset version string, constant for
the process lifetime, in YYYY-MM-DD format. The literal value of the
missing source is not attested; a representative date is used. -/
def getDocVersion : String := "2024-10-08"

/-- Result shape of getDeclineDescription: a docVersion field and a field
named code holding the looked-up record, or none standing for the empty
structure when the code is absent or invalid. The field is named code,
as in the repository tests, rather than record as in the spec prose. -/
structure DeclineDescriptionResult where
  docVersion : String
  code : Option DeclineCodeInfo
deriving DecidableEq, Repr

/-- Modelled from the spec: getDeclineDescription with an optional code
argument; none models an absent argument. The docVersion field is always
populated; the code field is the record for a valid key and empty
otherwise. -/
def getDeclineDescription (code : Option String) : DeclineDescriptionResult :=
  ⟨getDocVersion, code.bind lookupDeclineCode⟩

/-- Modelled from the spec: localized message resolution. Step 1: invalid
code gives absent. Step 2: a Translation entry for the locale gives that
entry its nextUserAction. Step 3: otherwise the base-locale
nextUserAction. An absent locale argument means the base locale en. -/
def getDeclineMessage (code : String) (locale : Locale) : Option String :=
  match lookupDeclineCode code with
  | none => none
  | some r =>
    match r.translations.lookup locale with
    | some t => some t.nextUserAction
    | none => some r.nextUserAction

/-- Modelled from the spec: placeholder substitution over a resolved
message. The spec leaves the delimiter syntax open; a double-brace
delimited token is used. Every occurrence of a placeholder whose key is
in the variables mapping is replaced by its value; keys without
placeholders change nothing; with an empty mapping the message is
returned unchanged. -/
def substituteVariables (msg : String) (vars : List (String × String)) : String :=
  vars.foldl (fun m kv => m.replace ("\x7b\x7b" ++ kv.1 ++ "\x7d\x7d") kv.2) msg

/-- Modelled from the spec: formatDeclineMessage resolves the base message
via getDeclineMessage and, when present, applies placeholder
substitution; none for the variables argument models an absent argument. -/
def formatDeclineMessage (code : String) (locale : Locale)
    (vars : Option (List (String × String))) : Option String :=
  (getDeclineMessage code locale).map fun msg =>
    match vars with
    | none => msg
    | some vs => substituteVariables msg vs

/-- Modelled from the spec: the stored category for a valid code, absent
otherwise. -/
def getDeclineCategory (code : String) : Option DeclineCategory :=
  (lookupDeclineCode code).map DeclineCodeInfo.category

/-- Modelled from the spec: true iff the code is valid and its category is
HARD_DECLINE. -/
def isHardDecline (code : String) : Bool :=
  match getDeclineCategory code with
  | some DeclineCategory.HARD_DECLINE => true
  | _ => false

/-- Modelled from the spec: true iff the code is valid and its category is
SOFT_DECLINE. -/
def isSoftDecline (code : String) : Bool :=
  match getDeclineCategory code with
  | some DeclineCategory.SOFT_DECLINE => true
  | _ => false

/-- Externally supplied error-shaped structure with an optional
decline_code field among others. Fields in order: type, decline_code,
message. -/
structure StripeError where
  type : Option String
  decline_code : Option String
  message : Option String
deriving DecidableEq, Repr

/-- Modelled from the spec: adapter that extracts the decline_code field
and delegates to getDeclineMessage; absent when the field is absent or
not a valid code; no other field is inspected. -/
def getMessageFromStripeError (e : StripeError) (locale : Locale) : Option String :=
  match e.decline_code with
  | some c => getDeclineMessage c locale
  | none => none

/-- Checks the YYYY-MM-DD shape: length ten, digits everywhere except a
dash at positions four and seven. -/
def isDateFormatYYYYMMDD (s : String) : Bool :=
  s.length == 10 &&
    s.toList.enum.all fun ic =>
      if ic.1 == 4 || ic.1 == 7 then ic.2 == '-' else ic.2.isDigit

/-- Validity of a code is exactly membership in the registry key list. -/
theorem isValid_iff_mem_keys (s : String) :
    isValidDeclineCode s = true ↔ s ∈ DECLINE_CODES.map Prod.fst := by
  simp only [isValidDeclineCode, lookupDeclineCode, Option.isSome_map',
    List.find?_isSome, List.mem_map, beq_iff_eq]

/-- An invalid code has no registry entry. -/
theorem lookup_eq_none_of_invalid {s : String}
    (h : isValidDeclineCode s = false) : lookupDeclineCode s = none := by
  unfold isValidDeclineCode at h
  cases hl : lookupDeclineCode s with
  | none => rfl
  | some r => rw [hl] at h; simp at h

/-- A valid code has a registry entry. -/
theorem lookup_exists_of_valid {s : String}
    (h : isValidDeclineCode s = true) :
    ∃ r, lookupDeclineCode s = some r := by
  unfold isValidDeclineCode at h
  exact Option.isSome_iff_exists.mp h

/-- C1: getDeclineMessage follows the three-step resolution order: invalid
code gives absent; a Translation entry for the locale gives that entry its
nextUserAction; otherwise the base-locale nextUserAction; with the three
concrete scenario values for insufficient_funds and invalid_code. -/
theorem getDeclineMessage_resolution_order :
    (∀ code locale, lookupDeclineCode code = none →
        getDeclineMessage code locale = none) ∧
    (∀ code locale r t, lookupDeclineCode code = some r →
        r.translations.lookup locale = some t →
        getDeclineMessage code locale = some t.nextUserAction) ∧
    (∀ code locale r, lookupDeclineCode code = some r →
        r.translations.lookup locale = none →
        getDeclineMessage code locale = some r.nextUserAction) ∧
    getDeclineMessage "insufficient_funds" Locale.en =
      some "Please try again using an alternative payment method." ∧
    getDeclineMessage "insufficient_funds" Locale.ja =
      some "別のお支払い方法を使用してもう一度お試しください。" ∧
    getDeclineMessage "invalid_code" Locale.en = none := by
  refine ⟨?_, ?_, ?_, by decide, by decide, by decide⟩
  · intro code locale h
    simp [getDeclineMessage, h]
  · intro code locale r t h ht
    simp [getDeclineMessage, h, ht]
  · intro code locale r h ht
    simp [getDeclineMessage, h, ht]

/-- Witness for C1: the invalid-code branch at a concrete input. -/
theorem getDeclineMessage_resolution_order_witness :
    getDeclineMessage "invalid_code" Locale.ja = none :=
  getDeclineMessage_resolution_order.1 "invalid_code" Locale.ja (by decide)

/-- C2: for a valid code and either locale, formatDeclineMessage with the
variables argument absent, or with an empty variables mapping, equals
getDeclineMessage byte for byte. -/
theorem formatDeclineMessage_noop (c : String) (locale : Locale)
    (h : isValidDeclineCode c = true) :
    formatDeclineMessage c locale none = getDeclineMessage c locale ∧
    formatDeclineMessage c locale (some []) = getDeclineMessage c locale := by
  constructor <;>
    cases hm : getDeclineMessage c locale <;>
      simp [formatDeclineMessage, hm, substituteVariables]

/-- Witness for C2 at a concrete valid code and locale. -/
theorem formatDeclineMessage_noop_witness :
    formatDeclineMessage "insufficient_funds" Locale.ja none =
      getDeclineMessage "insufficient_funds" Locale.ja ∧
    formatDeclineMessage "insufficient_funds" Locale.ja (some []) =
      getDeclineMessage "insufficient_funds" Locale.ja :=
  formatDeclineMessage_noop "insufficient_funds" Locale.ja (by decide)

/-- C3: every string outside the registry key set is invalid and yields an
empty record component, and the no-argument call does too, with
docVersion populated in every case. -/
theorem getDeclineDescription_invalid :
    (∀ s, isValidDeclineCode s = false →
        (getDeclineDescription (some s)).code = none ∧
        (getDeclineDescription (some s)).docVersion = getDocVersion) ∧
    (getDeclineDescription none).code = none ∧
    (getDeclineDescription none).docVersion = getDocVersion ∧
    getDocVersion ≠ "" := by
  refine ⟨?_, rfl, rfl, by decide⟩
  intro s h
  have hl := lookup_eq_none_of_invalid h
  simp [getDeclineDescription, hl]

/-- Witness for C3 at a whitespace-only string. -/
theorem getDeclineDescription_invalid_witness :
    (getDeclineDescription (some "   ")).code = none ∧
    (getDeclineDescription (some "   ")).docVersion = getDocVersion :=
  getDeclineDescription_invalid.1 "   " (by decide)

/-- C4: getAllDeclineCodes is the registry key sequence: membership in it
is exactly validity, and it has no duplicates. -/
theorem getAllDeclineCodes_spec :
    getAllDeclineCodes = DECLINE_CODES.map Prod.fst ∧
    (∀ s, s ∈ getAllDeclineCodes ↔ isValidDeclineCode s = true) ∧
    getAllDeclineCodes.Nodup := by
  refine ⟨rfl, ?_, by decide⟩
  intro s
  exact (isValid_iff_mem_keys s).symm

/-- Witness for C4 at a concrete code. -/
theorem getAllDeclineCodes_spec_witness :
    "insufficient_funds" ∈ getAllDeclineCodes ↔
      isValidDeclineCode "insufficient_funds" = true :=
  getAllDeclineCodes_spec.2.1 "insufficient_funds"

/-- C5: for every valid code exactly one of isHardDecline and
isSoftDecline holds, each true iff the stored category matches; both are
false on every invalid code; with the two concrete category scenarios. -/
theorem decline_category_partition :
    (∀ c, isValidDeclineCode c = true →
        (isHardDecline c = true ∧ isSoftDecline c = false) ∨
        (isHardDecline c = false ∧ isSoftDecline c = true)) ∧
    (∀ c, isValidDeclineCode c = false →
        isHardDecline c = false ∧ isSoftDecline c = false) ∧
    (∀ c, isHardDecline c = true ↔
        getDeclineCategory c = some DeclineCategory.HARD_DECLINE) ∧
    (∀ c, isSoftDecline c = true ↔
        getDeclineCategory c = some DeclineCategory.SOFT_DECLINE) ∧
    getDeclineCategory "insufficient_funds" =
      some DeclineCategory.SOFT_DECLINE ∧
    getDeclineCategory "fraudulent" = some DeclineCategory.HARD_DECLINE := by
  refine ⟨?_, ?_, ?_, ?_, by decide, by decide⟩
  · intro c h
    obtain ⟨r, hr⟩ := lookup_exists_of_valid h
    cases hcat : r.category <;>
      simp [isHardDecline, isSoftDecline, getDeclineCategory, hr, hcat]
  · intro c h
    have hl := lookup_eq_none_of_invalid h
    simp [isHardDecline, isSoftDecline, getDeclineCategory, hl]
  · intro c
    unfold isHardDecline
    cases hc : getDeclineCategory c with
    | none => simp
    | some cat => cases cat <;> simp
  · intro c
    unfold isSoftDecline
    cases hc : getDeclineCategory c with
    | none => simp
    | some cat => cases cat <;> simp

/-- Witness for C5: the partition at a concrete valid code. -/
theorem decline_category_partition_witness :
    (isHardDecline "fraudulent" = true ∧ isSoftDecline "fraudulent" = false) ∨
    (isHardDecline "fraudulent" = false ∧ isSoftDecline "fraudulent" = true) :=
  decline_category_partition.1 "fraudulent" (by decide)

/-- C6: getDocVersion has the YYYY-MM-DD shape and equals the docVersion
field of getDeclineDescription for every valid code. -/
theorem getDocVersion_spec :
    isDateFormatYYYYMMDD getDocVersion = true ∧
    (∀ c, isValidDeclineCode c = true →
        (getDeclineDescription (some c)).docVersion = getDocVersion) := by
  refine ⟨by decide, ?_⟩
  intro c _
  rfl

/-- Witness for C6 at a concrete valid code. -/
theorem getDocVersion_spec_witness :
    (getDeclineDescription (some "expired_card")).docVersion = getDocVersion :=
  getDocVersion_spec.2 "expired_card" (by decide)

/-- C7: for an invalid code, formatDeclineMessage is absent for every
locale and every variables mapping. -/
theorem formatDeclineMessage_invalid (code : String) (locale : Locale)
    (vars : Option (List (String × String)))
    (h : isValidDeclineCode code = false) :
    formatDeclineMessage code locale vars = none := by
  have hl := lookup_eq_none_of_invalid h
  simp [formatDeclineMessage, getDeclineMessage, hl]

/-- Witness for C7 at a concrete invalid code with nonempty variables. -/
theorem formatDeclineMessage_invalid_witness :
    formatDeclineMessage "invalid_code" Locale.en
      (some [("merchantName", "Acme Store")]) = none :=
  formatDeclineMessage_invalid "invalid_code" Locale.en
    (some [("merchantName", "Acme Store")]) (by decide)

/-- C8: getMessageFromStripeError delegates to getDeclineMessage on the
decline_code field, is absent when that field is absent or invalid,
depends on no other field, and matches the concrete scenario. -/
theorem getMessageFromStripeError_spec :
    (∀ e locale c, StripeError.decline_code e = some c →
        getMessageFromStripeError e locale = getDeclineMessage c locale) ∧
    (∀ e locale, StripeError.decline_code e = none →
        getMessageFromStripeError e locale = none) ∧
    (∀ e locale c, StripeError.decline_code e = some c →
        isValidDeclineCode c = false →
        getMessageFromStripeError e locale = none) ∧
    (∀ e f locale, StripeError.decline_code e = StripeError.decline_code f →
        getMessageFromStripeError e locale = getMessageFromStripeError f locale) ∧
    getMessageFromStripeError
        ⟨some "StripeCardError", some "insufficient_funds",
         some "Your card has insufficient funds."⟩ Locale.ja =
      getDeclineMessage "insufficient_funds" Locale.ja := by
  refine ⟨?_, ?_, ?_, ?_, rfl⟩
  · intro e locale c h
    simp [getMessageFromStripeError, h]
  · intro e locale h
    simp [getMessageFromStripeError, h]
  · intro e locale c h hv
    have hl := lookup_eq_none_of_invalid hv
    simp [getMessageFromStripeError, h, getDeclineMessage, hl]
  · intro e f locale h
    unfold getMessageFromStripeError
    rw [h]

/-- Witness for C8: delegation at a concrete error structure. -/
theorem getMessageFromStripeError_spec_witness :
    getMessageFromStripeError ⟨none, some "fraudulent", none⟩ Locale.en =
      getDeclineMessage "fraudulent" Locale.en :=
  getMessageFromStripeError_spec.1 ⟨none, some "fraudulent", none⟩ Locale.en
    "fraudulent" rfl

/-- C9: every public operation is total in the embedding, and on an
arbitrary invalid string, of any shape, each failure mode is the sentinel
absence: none, an empty record component, or false. -/
theorem sentinel_failure_modes (s : String) (locale : Locale)
    (vars : Option (List (String × String))) (e : StripeError)
    (h : isValidDeclineCode s = false) :
    getDeclineMessage s locale = none ∧
    (getDeclineDescription (some s)).code = none ∧
    formatDeclineMessage s locale vars = none ∧
    getDeclineCategory s = none ∧
    isHardDecline s = false ∧
    isSoftDecline s = false ∧
    (StripeError.decline_code e = some s →
        getMessageFromStripeError e locale = none) := by
  have hl := lookup_eq_none_of_invalid h
  refine ⟨?_, ?_, ?_, ?_, ?_, ?_, ?_⟩
  · simp [getDeclineMessage, hl]
  · simp [getDeclineDescription, hl]
  · simp [formatDeclineMessage, getDeclineMessage, hl]
  · simp [getDeclineCategory, hl]
  · simp [isHardDecline, getDeclineCategory, hl]
  · simp [isSoftDecline, getDeclineCategory, hl]
  · intro he
    simp [getMessageFromStripeError, he, getDeclineMessage, hl]

/-- Witness for C9 at a non-ASCII invalid string. -/
theorem sentinel_failure_modes_witness :
    getDeclineMessage "資金不足" Locale.ja = none ∧
    (getDeclineDescription (some "資金不足")).code = none ∧
    formatDeclineMessage "資金不足" Locale.ja (some [("k", "v")]) = none ∧
    getDeclineCategory "資金不足" = none ∧
    isHardDecline "資金不足" = false ∧
    isSoftDecline "資金不足" = false ∧
    (StripeError.decline_code ⟨none, some "資金不足", none⟩ = some "資金不足" →
        getMessageFromStripeError ⟨none, some "資金不足", none⟩ Locale.ja = none) :=
  sentinel_failure_modes "資金不足" Locale.ja (some [("k", "v")])
    ⟨none, some "資金不足", none⟩ (by decide)

/-- C10: the description result carries the looked-up record under the
field named code: the full record for a valid key, the empty structure
for an invalid key or an absent argument, next to docVersion. -/
theorem getDeclineDescription_code_field :
    (∀ s r, lookupDeclineCode s = some r →
        getDeclineDescription (some s) = ⟨getDocVersion, some r⟩) ∧
    (∀ s, lookupDeclineCode s = none →
        getDeclineDescription (some s) = ⟨getDocVersion, none⟩) ∧
    getDeclineDescription none = ⟨getDocVersion, none⟩ := by
  refine ⟨?_, ?_, rfl⟩
  · intro s r h
    simp [getDeclineDescription, h]
  · intro s h
    simp [getDeclineDescription, h]

/-- Witness for C10 at a concrete invalid code. -/
theorem getDeclineDescription_code_field_witness :
    getDeclineDescription (some "invalid_code") = ⟨getDocVersion, none⟩ :=
  getDeclineDescription_code_field.2.1 "invalid_code" (by decide)

end StripeDeclineCodes
